import Mathlib

/-!
Verification of the EVS session multiplexer (`HalCamera`, from
`src/evs/manager/1.1/HalCamera.cpp`).

The multiplexer owns one hardware camera session and fans frames out to a
set of weakly-referenced client cameras.  Clients are modelled by opaque
numeric identities; their externally-owned behaviour (liveness, declared
buffer allowance, stream version, frame acceptance, streaming flag, the
hardware parameter calls) is an environment of oracles, mirroring the
boundary the C++ code sees through `sp`/`wp` references and HIDL calls.
Hardware interactions are reported as outputs (returned buffers, demanded
counts, notifications) instead of side effects.
-/

namespace Evs

/-- Result codes used by the camera service (subset used by `HalCamera.cpp`). -/
inductive EvsResult where
  | OK
  | INVALID_ARG
  | OWNERSHIP_LOST
  | UNDERLYING_SERVICE_ERROR
deriving DecidableEq, Repr

/-- Event kinds forwarded through `notify` (subset used by `HalCamera.cpp`). -/
inductive EvsEventType where
  | STREAM_STOPPED
  | PARAMETER_CHANGED
  | MASTER_RELEASED
deriving DecidableEq, Repr

/-- Stream state machine values of `HalCamera` (`mStreamState`). -/
inductive StreamState where
  | STOPPED
  | RUNNING
  | STOPPING
deriving DecidableEq, Repr

/-- Modelled from the spec: `FrameRecord { bufferId, refCount }` is declared in
`HalCamera.h`, which is not under `src/`; the spec's data model gives
`refCount : integer` (with "never negative" stated as an invariant, not as the
type), so the count is embedded as a mathematical integer. -/
structure FrameRecord where
  frameId : Nat
  refCount : Int
deriving DecidableEq, Repr

/-- A buffer descriptor as far as `deliverFrame_1_1`/`doneWithFrame` read it:
its identifier and its capture timestamp. -/
structure Buffer where
  bufferId : Nat
  timestamp : Int
deriving DecidableEq, Repr

/-- `FrameRequest { client, timestamp }` from `requestNewFrame`: the weak client
reference (its identity) and the `notAfter` watermark timestamp. -/
structure FrameRequest where
  client : Nat
  timestamp : Int
deriving DecidableEq, Repr

/-- Modelled from the spec: the per-client synchronization timeline
(`UniqueTimeline`, whose sources are not under `src/`).  A fence-event counter
is advanced when a fence is created; a timeline (signal) counter is advanced
when a frame is delivered; a fence tied to slot `n` is resolved once the
signal counter reaches `n`; teardown force-advances the signal counter over
every outstanding fence slot ("force-advancing to a sentinel max value on
teardown"). -/
structure Timeline where
  fenceCount : Nat
  signaled : Nat
deriving DecidableEq, Repr

/-- Environment of externally-owned behaviour: client liveness (weak-reference
promotion), the per-client getters `HalCamera` calls, and the hardware
parameter calls. -/
structure Env where
  alive : Nat → Bool
  allowed : Nat → Nat
  version : Nat → Nat
  accepts : Nat → Bool
  isStreaming : Nat → Bool
  setIntParameter : Nat → Int → EvsResult × Int
  getIntParameter : Nat → EvsResult × Int

/-- `wp::promote()` on a stored client reference: a strong handle when the
client is still alive, otherwise null. -/
def promote (env : Env) (c : Nat) : Option Nat :=
  if env.alive c then some c else none

/-- `promote()` lifted to a nullable stored reference (e.g. `mMaster`). -/
def promoteOpt (env : Env) (o : Option Nat) : Option Nat :=
  o.bind (promote env)

/-- The mutable state of one `HalCamera` instance (the fields of
`HalCamera.h` that `HalCamera.cpp` reads and writes). -/
structure State where
  mClients : List Nat
  mFrames : List FrameRecord
  mTimelines : List (Nat × Timeline)
  mNextRequests : List FrameRequest
  mCurrentRequests : List FrameRequest
  mMaster : Option Nat
  mFramesReceived : Nat
  mFramesNotUsed : Nat
  mSyncFrames : Nat
  mSyncSupported : Bool
  mStreamState : StreamState
deriving DecidableEq, Repr

/-- Association-list lookup for the `std::unordered_map` of timelines. -/
def lookupTimeline : List (Nat × Timeline) → Nat → Option Timeline
  | [], _ => none
  | p :: rest, c => if p.1 = c then some p.2 else lookupTimeline rest c

/-- Insert-or-overwrite for the timeline map (`mTimelines[id] = ...`). -/
def setTimeline : List (Nat × Timeline) → Nat → Timeline → List (Nat × Timeline)
  | [], c, tl => [(c, tl)]
  | p :: rest, c, tl => if p.1 = c then (c, tl) :: rest else p :: setTimeline rest c tl

/-- `mTimelines.erase(clientId)`. -/
def eraseTimeline : List (Nat × Timeline) → Nat → List (Nat × Timeline)
  | [], _ => []
  | p :: rest, c => if p.1 = c then rest else p :: eraseTimeline rest c

/-- `mTimelines[id]->BumpTimelineEventCounter()`: advance the signal counter of
the client's timeline by one (`operator[]` default-constructs an entry for a
missing key). -/
def bumpTimeline (tls : List (Nat × Timeline)) (c : Nat) : List (Nat × Timeline) :=
  let tl := (lookupTimeline tls c).getD ⟨0, 0⟩
  setTimeline tls c { tl with signaled := tl.signaled + 1 }

/-- Modelled from the spec: `UniqueTimeline` teardown (the destructor run by
`mTimelines.erase`) force-advances the signal counter over every outstanding
fence slot, so no waiter blocks forever. -/
def destroyTimeline (tl : Timeline) : Timeline :=
  { tl with signaled := max tl.signaled tl.fenceCount }

/-- A fence tied to event slot `n` of a timeline is resolved once the signal
counter has reached `n`. -/
def fenceResolved (tl : Timeline) (n : Nat) : Bool :=
  decide (n ≤ tl.signaled)

/-- The client-walk of `changeFramesInFlight`: sum the declared buffer
allowance of every client reference that still promotes; dead references are
skipped. -/
def sumAllowed (env : Env) : List Nat → Nat
  | [] => 0
  | c :: rest =>
    match promote env c with
    | some v => env.allowed v + sumAllowed env rest
    | none => sumAllowed env rest

/-- The buffer demand `changeFramesInFlight` sends to the hardware: the live
sum plus the delta, computed in a C++ `unsigned` (32-bit wraparound), then
floored at 1 ("Never drop below 1 buffer"). -/
def demandOf (env : Env) (clients : List Nat) (delta : Int) : Nat :=
  let raw := (Int.emod ((sumAllowed env clients : Int) + delta) (2 ^ 32)).toNat
  if raw < 1 then 1 else raw

/-- `HalCamera::changeFramesInFlight(int delta)`: compute the demand, ask the
hardware (`setMaxFramesInFlight`, abstracted as the `hwAccepts` oracle), and on
success compact the frame-record table to the records still in use
(`refCount > 0`).  Returns the new state, the success flag, and the demanded
count. -/
def changeFramesInFlight (env : Env) (s : State) (delta : Int) (hwAccepts : Nat → Bool) :
    State × Bool × Nat :=
  let demand := demandOf env s.mClients delta
  if hwAccepts demand then
    ({ s with mFrames := s.mFrames.filter (fun r => decide (0 < r.refCount)) }, true, demand)
  else
    (s, false, demand)

/-- `HalCamera::ownVirtualCamera`: reject a null client; grow the buffer pool
by the client's allowance; on hardware refusal fail without touching any
state; otherwise lazily create a timeline (when synchronization is supported)
and append the client to the membership list. -/
def ownVirtualCamera (env : Env) (s : State) (cam : Option Nat) (hwAccepts : Nat → Bool) :
    State × Bool :=
  match cam with
  | none => (s, false)
  | some c =>
    let r := changeFramesInFlight env s ((env.allowed c : Int)) hwAccepts
    if r.2.1 then
      let s1 := r.1
      let s2 :=
        if s1.mSyncSupported then
          { s1 with mTimelines := setTimeline s1.mTimelines c ⟨0, 0⟩ }
        else s1
      ({ s2 with mClients := s2.mClients ++ [c] }, true)
    else
      (r.1, false)

/-- `HalCamera::requestNewFrame`: fail when synchronization is unsupported;
otherwise bump the client's fence-event counter (reserving the fence slot) and
append a `FrameRequest` to the pending queue.  The returned flag records
whether a real fence was produced. -/
def requestNewFrame (s : State) (client : Nat) (lastTimestamp : Int) : State × Bool :=
  if s.mSyncSupported then
    let tl := (lookupTimeline s.mTimelines client).getD ⟨0, 0⟩
    ({ s with
        mTimelines := setTimeline s.mTimelines client { tl with fenceCount := tl.fenceCount + 1 },
        mNextRequests := s.mNextRequests ++ [{ client := client, timestamp := lastTimestamp }] },
     true)
  else
    (s, false)

/-- `HalCamera::doneWithFrame` body: walk `mFrames` for the first record whose
`frameId` matches, decrement its count, and return the buffer to the hardware
when the decremented count is `≤ 0`.  Produces the updated table and the list
of buffer ids returned to the hardware by this call. -/
def doneLoop : List FrameRecord → Nat → List FrameRecord × List Nat
  | [], _ => ([], [])
  | r :: rest, bid =>
    if r.frameId = bid then
      (⟨r.frameId, r.refCount - 1⟩ :: rest,
       if r.refCount - 1 ≤ 0 then [bid] else [])
    else
      let p := doneLoop rest bid
      (r :: p.1, p.2)

/-- `HalCamera::doneWithFrame(buffer)`: unrecognized ids are logged and
ignored; otherwise the matching record is decremented and the buffer returned
to the device layer when no client still uses it. -/
def doneWithFrame (s : State) (bid : Nat) : State × List Nat :=
  let p := doneLoop s.mFrames bid
  ({ s with mFrames := p.1 }, p.2)

/-- The rate-limit threshold of `deliverFrame_1_1`
(`constexpr int64_t kThreshold = 16 * 1e+3`). -/
def kThreshold : Int := 16 * 1000

/-- Accumulator of the fence-track drain loop of `deliverFrame_1_1`: the
queue being refilled (`mNextRequests` after the swap), the timeline map, the
skipped-for-sync counter, and the fence-track delivery count. -/
structure DrainAcc where
  nextReqs : List FrameRequest
  timelines : List (Nat × Timeline)
  syncFrames : Nat
  deliveriesV1 : Nat
deriving DecidableEq, Repr

/-- One iteration of the fence-track drain loop: drop requests of dead
clients; re-queue (and count as skipped) requests whose frame arrives within
`kThreshold` of the watermark; on accepted delivery bump the client's timeline
and count the delivery; on rejection drop the request. -/
def processRequest (env : Env) (ts : Int) (acc : DrainAcc) (req : FrameRequest) : DrainAcc :=
  match promote env req.client with
  | none => acc
  | some v =>
    if ts - req.timestamp < kThreshold then
      { acc with nextReqs := acc.nextReqs ++ [req], syncFrames := acc.syncFrames + 1 }
    else if env.accepts v then
      { acc with
          timelines := bumpTimeline acc.timelines v,
          deliveriesV1 := acc.deliveriesV1 + 1 }
    else
      acc

/-- The `while (!mCurrentRequests->empty())` drain loop. -/
def drainRequests (env : Env) (ts : Int) : List FrameRequest → DrainAcc → DrainAcc
  | [], acc => acc
  | req :: rest, acc => drainRequests env ts rest (processRequest env ts acc req)

/-- The fence-aware track of `deliverFrame_1_1` (runs only when
synchronization is supported): swap the pending queues, drain the current one,
and return the updated state together with the fence-track delivery count. -/
def fenceTrack (env : Env) (s : State) (ts : Int) : State × Nat :=
  if s.mSyncSupported then
    let acc := drainRequests env ts s.mNextRequests
      { nextReqs := s.mCurrentRequests, timelines := s.mTimelines,
        syncFrames := s.mSyncFrames, deliveriesV1 := 0 }
    ({ s with
        mNextRequests := acc.nextReqs,
        mCurrentRequests := [],
        mTimelines := acc.timelines,
        mSyncFrames := acc.syncFrames },
     acc.deliveriesV1)
  else
    (s, 0)

/-- The direct (v1.0-style) track of `deliverFrame_1_1`: offer the frame to
every live client that is not served by the fence track, counting
acceptances. -/
def directTrack (env : Env) (syncSupported : Bool) : List Nat → Nat
  | [] => 0
  | c :: rest =>
    match promote env c with
    | none => directTrack env syncSupported rest
    | some v =>
      if syncSupported && decide (0 < env.version v) then
        directTrack env syncSupported rest
      else if env.accepts v then
        1 + directTrack env syncSupported rest
      else
        directTrack env syncSupported rest

/-- The tail of `deliverFrame_1_1`: place the accepted frame in the first
free (`refCount == 0`) slot of the record table, appending when no slot is
free. -/
def insertFrameLoop : List FrameRecord → Nat → Int → List FrameRecord
  | [], bid, cnt => [⟨bid, cnt⟩]
  | r :: rest, bid, cnt =>
    if r.refCount = 0 then
      ⟨bid, cnt⟩ :: rest
    else
      r :: insertFrameLoop rest bid cnt

/-- The total delivery count of one arrival: direct-track acceptances plus
fence-track acceptances (`frameDeliveries += frameDeliveriesV1`). -/
def totalDeliveries (env : Env) (s : State) (buf : Buffer) : Nat :=
  directTrack env s.mSyncSupported s.mClients + (fenceTrack env s buf.timestamp).2

/-- `HalCamera::deliverFrame_1_1`: run the fence track, count the arrival,
run the direct track; with no acceptance return the buffer to the hardware at
once and count it unused, otherwise record it in the frame table with the
delivery count.  Returns the new state and the buffers returned to the
hardware by this call. -/
def deliverFrame_1_1 (env : Env) (s : State) (buf : Buffer) : State × List Nat :=
  let ft := fenceTrack env s buf.timestamp
  let s1 := ft.1
  let frameDeliveriesV1 := ft.2
  let s2 := { s1 with mFramesReceived := s1.mFramesReceived + 1 }
  let frameDeliveries := directTrack env s2.mSyncSupported s2.mClients + frameDeliveriesV1
  if frameDeliveries < 1 then
    ({ s2 with mFramesNotUsed := s2.mFramesNotUsed + 1 }, [buf.bufferId])
  else
    ({ s2 with mFrames := insertFrameLoop s2.mFrames buf.bufferId (frameDeliveries : Int) },
     [])

/-- `HalCamera::notify`: a `STREAM_STOPPED` event drives the state machine to
`STOPPED` (even when unexpected); every event is then forwarded to each client
that still promotes.  Returns the state and the delivered notifications. -/
def notify (env : Env) (s : State) (ev : EvsEventType) : State × List (Nat × EvsEventType) :=
  let s1 :=
    if ev = EvsEventType.STREAM_STOPPED then
      { s with mStreamState := StreamState.STOPPED }
    else s
  (s1, s1.mClients.filterMap (fun c => (promote env c).map (fun v => (v, ev))))

/-- `HalCamera::setMaster`: install the caller only when the master slot holds
a null reference; otherwise report `OWNERSHIP_LOST` and change nothing.  The
slot is compared against null directly (`mMaster == nullptr`), not through
promotion. -/
def setMaster (s : State) (caller : Nat) : State × EvsResult :=
  match s.mMaster with
  | none => ({ s with mMaster := some caller }, EvsResult.OK)
  | some _ => (s, EvsResult.OWNERSHIP_LOST)

/-- `HalCamera::forceMaster`: always `OK`; a no-op when the promoted current
master is the caller; otherwise take the slot and, when a previous master was
still alive, send it one `MASTER_RELEASED` notification. -/
def forceMaster (env : Env) (s : State) (caller : Nat) :
    State × EvsResult × List (Nat × EvsEventType) :=
  match promoteOpt env s.mMaster with
  | some prev =>
    if prev = caller then
      (s, EvsResult.OK, [])
    else
      ({ s with mMaster := some caller }, EvsResult.OK, [(prev, EvsEventType.MASTER_RELEASED)])
  | none =>
    ({ s with mMaster := some caller }, EvsResult.OK, [])

/-- `HalCamera::unsetMaster`: fail with `INVALID_ARG` unless the promoted
master is the caller; on success clear the slot and broadcast
`MASTER_RELEASED` to the clients. -/
def unsetMaster (env : Env) (s : State) (caller : Nat) :
    State × EvsResult × List (Nat × EvsEventType) :=
  if promoteOpt env s.mMaster = some caller then
    let s1 := { s with mMaster := none }
    let n := notify env s1 EvsEventType.MASTER_RELEASED
    (n.1, EvsResult.OK, n.2)
  else
    (s, EvsResult.INVALID_ARG, [])

/-- Whether `virtualCamera == mMaster.promote()` holds for the caller. -/
def isMasterCaller (env : Env) (s : State) (caller : Nat) : Bool :=
  match promoteOpt env s.mMaster with
  | some m => decide (m = caller)
  | none => false

/-- Outcome of `HalCamera::setParameter`: the result code, the caller's value
slot after the call, whether a hardware write was issued, and the
notifications sent. -/
structure ParamOutcome where
  result : EvsResult
  value : Int
  hwWrote : Bool
  notified : List (Nat × EvsEventType)
deriving Repr

/-- `HalCamera::setParameter`: a master caller performs the hardware write
(the callback stores the status and the read-back value) and on `OK`
broadcasts `PARAMETER_CHANGED`; a non-master caller performs no write, has the
current value read into its slot (only on a successful read), and receives
`INVALID_ARG`. -/
def setParameter (env : Env) (s : State) (caller : Nat) (id : Nat) (v : Int) : ParamOutcome :=
  if isMasterCaller env s caller then
    let p := env.setIntParameter id v
    if p.1 = EvsResult.OK then
      { result := p.1, value := p.2, hwWrote := true,
        notified := (notify env s EvsEventType.PARAMETER_CHANGED).2 }
    else
      { result := p.1, value := p.2, hwWrote := true, notified := [] }
  else
    let g := env.getIntParameter id
    { result := EvsResult.INVALID_ARG,
      value := if g.1 = EvsResult.OK then g.2 else v,
      hwWrote := false, notified := [] }

/-- Erase the first pending request of `client`
(the `mNextRequests` scan of `clientStreamEnding`); also reports whether one
was found. -/
def removeFirstReq : List FrameRequest → Nat → List FrameRequest × Bool
  | [], _ => ([], false)
  | r :: rest, c =>
    if r.client = c then
      (rest, true)
    else
      let p := removeFirstReq rest c
      (r :: p.1, p.2)

/-- Erase the first membership entry whose promotion equals the caller
(the `mClients` scan of `clientStreamEnding`). -/
def removeFirstClient (env : Env) : List Nat → Nat → List Nat
  | [], _ => []
  | c1 :: rest, c =>
    if promote env c1 = some c then
      rest
    else
      c1 :: removeFirstClient env rest c

/-- Result of `clientStreamEnding`: the new state, the timelines destroyed by
the call (with their post-destruction counters), and whether the hardware
stream stop was requested. -/
structure EndResult where
  state : State
  destroyed : List (Nat × Timeline)
  hwStop : Bool
deriving Repr

/-- `HalCamera::clientStreamEnding`: erase the first pending request of the
client, and — only when one was found and a timeline exists — bump the
timeline once and erase it (its destructor force-signals it); erase the client
from membership; finally, when no remaining client still streams, move to
`STOPPING` and stop the hardware stream. -/
def clientStreamEnding (env : Env) (s : State) (client : Nat) : EndResult :=
  let rq := removeFirstReq s.mNextRequests client
  let tld :
      List (Nat × Timeline) × List (Nat × Timeline) :=
    if rq.2 then
      match lookupTimeline s.mTimelines client with
      | some tl =>
        (eraseTimeline s.mTimelines client,
         [(client, destroyTimeline { tl with signaled := tl.signaled + 1 })])
      | none => (s.mTimelines, [])
    else
      (s.mTimelines, [])
  let s1 := { s with
      mNextRequests := rq.1,
      mTimelines := tld.1,
      mClients := removeFirstClient env s.mClients client }
  let stillRunning := s1.mClients.any (fun c =>
    match promote env c with
    | some v => env.isStreaming v
    | none => false)
  if stillRunning then
    { state := s1, destroyed := tld.2, hwStop := false }
  else
    { state := { s1 with mStreamState := StreamState.STOPPING }, destroyed := tld.2,
      hwStop := true }

/-- Number of queued requests referring to a given client. -/
def countClientReqs (reqs : List FrameRequest) (c : Nat) : Nat :=
  (reqs.filter (fun q => decide (q.client = c))).length

/- Concrete fixtures used by the counterexamples and witnesses. -/

/-- An environment where every client is alive, accepts frames, is a v1.0
(direct-track) client with allowance 1, and the hardware parameter calls
succeed reading back 0. -/
def env1 : Env :=
  { alive := fun _ => true
    allowed := fun _ => 1
    version := fun _ => 0
    accepts := fun _ => true
    isStreaming := fun _ => false
    setIntParameter := fun _ v => (EvsResult.OK, v)
    getIntParameter := fun _ => (EvsResult.OK, 0) }

/-- A running session with one direct-track client and no synchronization. -/
def s0 : State :=
  { mClients := [10], mFrames := [], mTimelines := [], mNextRequests := []
    mCurrentRequests := [], mMaster := none, mFramesReceived := 0
    mFramesNotUsed := 0, mSyncFrames := 0, mSyncSupported := false
    mStreamState := StreamState.RUNNING }

/-- A session with no clients at all. -/
def sEmpty : State :=
  { s0 with mClients := [] }

/-- An environment whose clients declare an allowance of 2 buffers. -/
def env2 : Env :=
  { env1 with allowed := fun _ => 2 }

/-- A session with a single attached client (identity 5). -/
def sOne : State :=
  { s0 with mClients := [5] }

/-- A synchronization-supporting session with one fence-track client that
holds a timeline with one reserved fence slot and one pending request. -/
def sT : State :=
  { s0 with mClients := [5], mSyncSupported := true
            mTimelines := [(5, ⟨1, 0⟩)], mNextRequests := [⟨5, 0⟩] }

/-- A synchronization-supporting session with one fence-track client whose
timeline exists but has no reserved fence slot yet. -/
def sE : State :=
  { s0 with mClients := [5], mSyncSupported := true, mTimelines := [(5, ⟨0, 0⟩)] }

/-- A session whose master slot is held by client 3. -/
def sM : State :=
  { s0 with mMaster := some 3 }

/-- An environment where client 3 has been destroyed and every other client is
alive. -/
def envD : Env :=
  { env1 with alive := fun n => !(n == 3) }

/-- A concrete drain accumulator (empty refill queue, no timelines). -/
def accW : DrainAcc :=
  { nextReqs := [], timelines := [], syncFrames := 0, deliveriesV1 := 0 }

/-- A concrete pending request of client 5 with watermark 95. -/
def reqW : FrameRequest :=
  { client := 5, timestamp := 95 }

/-- A concrete arriving buffer. -/
def bufW : Buffer :=
  { bufferId := 7, timestamp := 100 }

/-- A session tracking one loaned buffer (id 3) with two outstanding client
references. -/
def sW : State :=
  { s0 with mFrames := [⟨3, 2⟩] }

/- Helper lemmas about the embedded operations. -/

theorem countClientReqs_cons (r : FrameRequest) (reqs : List FrameRequest) (c : Nat) :
    countClientReqs (r :: reqs) c
      = (if r.client = c then 1 else 0) + countClientReqs reqs c := by
  by_cases h : r.client = c
  · simp [countClientReqs, h, Nat.add_comm]
  · simp [countClientReqs, h]

theorem countClientReqs_append (l1 l2 : List FrameRequest) (c : Nat) :
    countClientReqs (l1 ++ l2) c = countClientReqs l1 c + countClientReqs l2 c := by
  simp [countClientReqs]

theorem removeFirstReq_count_one : ∀ (reqs : List FrameRequest) (c : Nat),
    countClientReqs reqs c = 1 →
    (removeFirstReq reqs c).2 = true ∧ countClientReqs (removeFirstReq reqs c).1 c = 0
  | [], c, h => by simp [countClientReqs] at h
  | r :: rest, c, h => by
    by_cases hr : r.client = c
    · have hrest : countClientReqs rest c = 0 := by
        rw [countClientReqs_cons, if_pos hr] at h
        omega
      simp [removeFirstReq, hr, hrest]
    · rw [countClientReqs_cons, if_neg hr, Nat.zero_add] at h
      have ih := removeFirstReq_count_one rest c h
      simp [removeFirstReq, hr, countClientReqs_cons, ih.1, ih.2]

theorem lookupTimeline_setTimeline : ∀ (tls : List (Nat × Timeline)) (c : Nat) (tl : Timeline),
    lookupTimeline (setTimeline tls c tl) c = some tl
  | [], c, tl => by simp [setTimeline, lookupTimeline]
  | p :: rest, c, tl => by
    by_cases h : p.1 = c
    · simp [setTimeline, h, lookupTimeline]
    · simp [setTimeline, h, lookupTimeline, lookupTimeline_setTimeline rest c tl]

theorem lookupTimeline_not_mem : ∀ (tls : List (Nat × Timeline)) (c : Nat),
    c ∉ tls.map Prod.fst → lookupTimeline tls c = none
  | [], _, _ => rfl
  | p :: rest, c, h => by
    simp only [List.map_cons, List.mem_cons, not_or] at h
    have h1 : ¬ p.1 = c := fun e => h.1 e.symm
    simp [lookupTimeline, h1, lookupTimeline_not_mem rest c h.2]

theorem lookupTimeline_eraseTimeline : ∀ (tls : List (Nat × Timeline)) (c : Nat),
    (tls.map Prod.fst).Nodup → lookupTimeline (eraseTimeline tls c) c = none
  | [], _, _ => rfl
  | p :: rest, c, h => by
    rw [List.map_cons, List.nodup_cons] at h
    by_cases hc : p.1 = c
    · have h2 : c ∉ rest.map Prod.fst := by rw [← hc]; exact h.1
      simp [eraseTimeline, hc, lookupTimeline_not_mem rest c h2]
    · simp [eraseTimeline, hc, lookupTimeline, lookupTimeline_eraseTimeline rest c h.2]

theorem doneLoop_not_found : ∀ (frames : List FrameRecord) (bid : Nat),
    (∀ x ∈ frames, x.frameId ≠ bid) → doneLoop frames bid = (frames, [])
  | [], _, _ => rfl
  | r :: rest, bid, h => by
    have hr : ¬ r.frameId = bid := h r (List.mem_cons_self r rest)
    simp [doneLoop, hr,
      doneLoop_not_found rest bid (fun x hx => h x (List.mem_cons_of_mem r hx))]

theorem doneLoop_found : ∀ (l1 : List FrameRecord) (r : FrameRecord) (l2 : List FrameRecord)
    (bid : Nat), (∀ x ∈ l1, x.frameId ≠ bid) → r.frameId = bid →
    doneLoop (l1 ++ r :: l2) bid
      = (l1 ++ (⟨r.frameId, r.refCount - 1⟩ : FrameRecord) :: l2,
         if r.refCount - 1 ≤ 0 then [bid] else [])
  | [], r, l2, bid, _, hr => by simp [doneLoop, hr]
  | x :: l1, r, l2, bid, h, hr => by
    have hx : ¬ x.frameId = bid := h x (List.mem_cons_self x l1)
    simp [doneLoop, hx,
      doneLoop_found l1 r l2 bid (fun y hy => h y (List.mem_cons_of_mem x hy)) hr]

theorem insertFrameLoop_no_free : ∀ (frames : List FrameRecord) (bid : Nat) (cnt : Int),
    (∀ x ∈ frames, x.refCount ≠ 0) →
    insertFrameLoop frames bid cnt = frames ++ [⟨bid, cnt⟩]
  | [], _, _, _ => rfl
  | r :: rest, bid, cnt, h => by
    have hr : ¬ r.refCount = 0 := h r (List.mem_cons_self r rest)
    simp [insertFrameLoop, hr,
      insertFrameLoop_no_free rest bid cnt (fun x hx => h x (List.mem_cons_of_mem r hx))]

theorem insertFrameLoop_free : ∀ (l1 : List FrameRecord) (r : FrameRecord)
    (l2 : List FrameRecord) (bid : Nat) (cnt : Int),
    (∀ x ∈ l1, x.refCount ≠ 0) → r.refCount = 0 →
    insertFrameLoop (l1 ++ r :: l2) bid cnt = l1 ++ (⟨bid, cnt⟩ : FrameRecord) :: l2
  | [], r, l2, bid, cnt, _, hr => by simp [insertFrameLoop, hr]
  | x :: l1, r, l2, bid, cnt, h, hr => by
    have hx : ¬ x.refCount = 0 := h x (List.mem_cons_self x l1)
    simp [insertFrameLoop, hx,
      insertFrameLoop_free l1 r l2 bid cnt (fun y hy => h y (List.mem_cons_of_mem x hy)) hr]

theorem fenceTrack_preserve (env : Env) (s : State) (ts : Int) :
    (fenceTrack env s ts).1.mClients = s.mClients
    ∧ (fenceTrack env s ts).1.mFrames = s.mFrames
    ∧ (fenceTrack env s ts).1.mSyncSupported = s.mSyncSupported
    ∧ (fenceTrack env s ts).1.mFramesReceived = s.mFramesReceived
    ∧ (fenceTrack env s ts).1.mFramesNotUsed = s.mFramesNotUsed := by
  unfold fenceTrack
  split <;> simp

theorem changeFramesInFlight_demandOf (env : Env) (s : State) (delta : Int)
    (hw : Nat → Bool) :
    (changeFramesInFlight env s delta hw).2.2 = demandOf env s.mClients delta := by
  unfold changeFramesInFlight
  simp only []
  split <;> rfl

theorem deliverFrame_eq (env : Env) (s : State) (buf : Buffer) :
    deliverFrame_1_1 env s buf =
      if totalDeliveries env s buf < 1 then
        ({ (fenceTrack env s buf.timestamp).1 with
            mFramesReceived := (fenceTrack env s buf.timestamp).1.mFramesReceived + 1,
            mFramesNotUsed := (fenceTrack env s buf.timestamp).1.mFramesNotUsed + 1 },
         [buf.bufferId])
      else
        ({ (fenceTrack env s buf.timestamp).1 with
            mFramesReceived := (fenceTrack env s buf.timestamp).1.mFramesReceived + 1,
            mFrames := insertFrameLoop (fenceTrack env s buf.timestamp).1.mFrames
              buf.bufferId (totalDeliveries env s buf : Int) },
         []) := by
  obtain ⟨hc, hf, hsync, hrecv, hunused⟩ := fenceTrack_preserve env s buf.timestamp
  simp only [deliverFrame_1_1, totalDeliveries, hc, hsync]

/-- Claim C1 (amended): a completion call whose bufferId matches no record in
the table changes no count and returns no buffer; a completion call matching a
record with `refCount ≥ 1` decrements only that record, keeps every count
nonnegative, and returns the buffer to the hardware exactly when the count
transitions from 1 to 0.  (The original claim fails for a record whose
refCount is already 0: the code decrements it to −1 and issues a second
hardware return — see the counterexample.) -/
theorem doneWithFrame_per_call (s : State) (bid : Nat) :
    ((∀ x ∈ s.mFrames, x.frameId ≠ bid) → doneWithFrame s bid = (s, []))
    ∧ (∀ l1 r l2, s.mFrames = l1 ++ r :: l2 →
        (∀ x ∈ l1, x.frameId ≠ bid) → r.frameId = bid → 1 ≤ r.refCount →
        (doneWithFrame s bid).1.mFrames = l1 ++ (⟨bid, r.refCount - 1⟩ : FrameRecord) :: l2
        ∧ ((doneWithFrame s bid).2 = [bid] ↔ r.refCount = 1)
        ∧ ((∀ x ∈ s.mFrames, 0 ≤ x.refCount) →
            ∀ x ∈ (doneWithFrame s bid).1.mFrames, 0 ≤ x.refCount)) := by
  constructor
  · intro h
    unfold doneWithFrame
    rw [doneLoop_not_found s.mFrames bid h]
  · intro l1 r l2 hsplit h1 hr hpos
    have hd := doneLoop_found l1 r l2 bid h1 hr
    unfold doneWithFrame
    rw [hsplit, hd]
    refine ⟨by simp [hr], ?_, ?_⟩
    · constructor
      · intro hret
        by_contra hne
        have : ¬ r.refCount - 1 ≤ 0 := by omega
        simp [this] at hret
      · intro h1
        have : r.refCount - 1 ≤ 0 := by omega
        simp [this]
    · intro hall x hx
      simp only [List.mem_append, List.mem_cons] at hx
      rcases hx with hx | hx | hx
      · exact hall x (List.mem_append_left _ hx)
      · rw [hx]; simp; omega
      · exact hall x (List.mem_append_right _ (List.mem_cons_of_mem r hx))

/-- Claim C1 counterexample: with one client accepting one frame (buffer 7,
refCount 1), the first completion call returns the buffer; a second completion
call for the same buffer still matches the (refCount 0) record, drives its
count to −1 and issues a second hardware return — so the claim as stated is
false. -/
theorem doneWithFrame_double_return_cex :
    (doneWithFrame (deliverFrame_1_1 env1 s0 bufW).1 7).2 = [7]
    ∧ (doneWithFrame (doneWithFrame (deliverFrame_1_1 env1 s0 bufW).1 7).1 7).2 = [7]
    ∧ (doneWithFrame (doneWithFrame (deliverFrame_1_1 env1 s0 bufW).1 7).1 7).1.mFrames
        = [⟨7, -1⟩] := by
  decide

/-- Witness for C1: a record with refCount 2 is decremented to 1 and the
buffer is not yet returned (2 ≠ 1). -/
theorem doneWithFrame_per_call_witness :
    (doneWithFrame sW 3).1.mFrames = [] ++ (⟨3, (2 : Int) - 1⟩ : FrameRecord) :: []
    ∧ ((doneWithFrame sW 3).2 = [3] ↔ (2 : Int) = 1) := by
  have h := (doneWithFrame_per_call sW 3).2 [] ⟨3, 2⟩ [] rfl (by simp) rfl (by norm_num)
  exact ⟨h.1, h.2.1⟩

/-- Claim C2 (amended): whenever the live sum plus the delta stays within
`[0, 2^32)`, the demand `changeFramesInFlight` sends to the hardware equals
that sum plus the delta clamped to a minimum of 1, and dead client references
contribute zero to the sum.  (The original universally-quantified claim fails
because the count is a 32-bit unsigned: a delta driving the total negative
wraps modulo 2^32 instead of clamping to 1 — see the counterexample.) -/
theorem changeFramesInFlight_demand_spec (env : Env) (s : State) (delta : Int)
    (hw : Nat → Bool)
    (h0 : 0 ≤ (sumAllowed env s.mClients : Int) + delta)
    (h1 : (sumAllowed env s.mClients : Int) + delta < 2 ^ 32) :
    ((changeFramesInFlight env s delta hw).2.2 : Int)
      = max ((sumAllowed env s.mClients : Int) + delta) 1
    ∧ ∀ c cs, env.alive c = false → sumAllowed env (c :: cs) = sumAllowed env cs := by
  constructor
  · rw [changeFramesInFlight_demandOf]
    unfold demandOf
    simp only []
    rw [show Int.emod ((sumAllowed env s.mClients : Int) + delta) (2 ^ 32)
          = (sumAllowed env s.mClients : Int) + delta from Int.emod_eq_of_lt h0 h1]
    split_ifs with h
    · omega
    · omega
  · intro c cs hc
    simp [sumAllowed, promote, hc]

/-- Claim C2 counterexample: with zero attached clients and delta −1 the code
sends 4294967295 (the 32-bit wraparound of −1) to the hardware, not the
claimed clamped value 1. -/
theorem changeFramesInFlight_wrap_cex :
    (changeFramesInFlight env1 sEmpty (-1) (fun _ => true)).2.2 = 4294967295
    ∧ (changeFramesInFlight env1 sEmpty (-1) (fun _ => true)).2.2 ≠ 1 := by
  decide

/-- Witness for C2: one attached client with allowance 2 and delta 0 yields a
demand of max(2, 1) = 2. -/
theorem changeFramesInFlight_demand_witness :
    ((changeFramesInFlight env2 sOne 0 (fun _ => true)).2.2 : Int)
      = max ((sumAllowed env2 sOne.mClients : Int) + 0) 1 :=
  (changeFramesInFlight_demand_spec env2 sOne 0 (fun _ => true) (by decide) (by decide)).1

/-- Claim C3 (confirmed): on every arrival the frames-received counter
increments; with zero total acceptances the buffer is returned at once, the
unused counter increments and the record table is untouched; with a positive
total the buffer is not returned, the unused counter is unchanged, and the
frame is recorded with the total count in the first free (`refCount == 0`)
slot, or appended when no slot is free. -/
theorem deliverFrame_fanout_spec (env : Env) (s : State) (buf : Buffer) :
    (deliverFrame_1_1 env s buf).1.mFramesReceived = s.mFramesReceived + 1
    ∧ (totalDeliveries env s buf = 0 →
        (deliverFrame_1_1 env s buf).2 = [buf.bufferId]
        ∧ (deliverFrame_1_1 env s buf).1.mFramesNotUsed = s.mFramesNotUsed + 1
        ∧ (deliverFrame_1_1 env s buf).1.mFrames = s.mFrames)
    ∧ (0 < totalDeliveries env s buf →
        (deliverFrame_1_1 env s buf).2 = []
        ∧ (deliverFrame_1_1 env s buf).1.mFramesNotUsed = s.mFramesNotUsed
        ∧ ((∀ x ∈ s.mFrames, x.refCount ≠ 0) →
            (deliverFrame_1_1 env s buf).1.mFrames
              = s.mFrames ++ [(⟨buf.bufferId, (totalDeliveries env s buf : Int)⟩ : FrameRecord)])
        ∧ (∀ l1 x l2, s.mFrames = l1 ++ x :: l2 →
            (∀ y ∈ l1, y.refCount ≠ 0) → x.refCount = 0 →
            (deliverFrame_1_1 env s buf).1.mFrames
              = l1 ++ (⟨buf.bufferId, (totalDeliveries env s buf : Int)⟩ : FrameRecord) :: l2)) := by
  obtain ⟨hc, hf, hsync, hrecv, hunused⟩ := fenceTrack_preserve env s buf.timestamp
  rw [deliverFrame_eq]
  refine ⟨?_, ?_, ?_⟩
  · split <;> simp [hrecv]
  · intro h0
    rw [if_pos (by omega)]
    exact ⟨rfl, by simp [hunused], by simp [hf]⟩
  · intro hpos
    rw [if_neg (by omega)]
    refine ⟨rfl, by simp [hunused], ?_, ?_⟩
    · intro hnf
      show insertFrameLoop (fenceTrack env s buf.timestamp).1.mFrames _ _ = _
      rw [hf, insertFrameLoop_no_free s.mFrames _ _ hnf]
    · intro l1 x l2 hsp hl1 hx
      show insertFrameLoop (fenceTrack env s buf.timestamp).1.mFrames _ _ = _
      rw [hf, hsp, insertFrameLoop_free l1 x l2 _ _ hl1 hx]

/-- Witness for C3: one accepting client, empty table — the arrival is counted
and the frame is appended with refCount equal to the total delivery count. -/
theorem deliverFrame_fanout_witness :
    (deliverFrame_1_1 env1 s0 bufW).1.mFramesReceived = s0.mFramesReceived + 1
    ∧ (deliverFrame_1_1 env1 s0 bufW).1.mFrames
        = s0.mFrames ++ [(⟨bufW.bufferId, (totalDeliveries env1 s0 bufW : Int)⟩ : FrameRecord)] := by
  have h := deliverFrame_fanout_spec env1 s0 bufW
  exact ⟨h.1, (h.2.2 (by decide)).2.2.1 (by decide)⟩

/-- Claim C4 (confirmed): each drained request is dropped when its client is
dead; re-queued unchanged (with the skipped-for-sync counter incremented and no
delivery) when the frame arrives within the inter-frame threshold of the
watermark; on accepted delivery the client's timeline signal counter advances
by exactly one and the delivery is counted; on rejection the request is
dropped without re-queue.  The last conjunct ties the step to the drain loop
run by `deliverFrame_1_1`. -/
theorem processRequest_cases (env : Env) (ts : Int) (acc : DrainAcc) (req : FrameRequest) :
    (promote env req.client = none → processRequest env ts acc req = acc)
    ∧ (∀ v, promote env req.client = some v → ts - req.timestamp < kThreshold →
        processRequest env ts acc req
          = { acc with nextReqs := acc.nextReqs ++ [req], syncFrames := acc.syncFrames + 1 })
    ∧ (∀ v, promote env req.client = some v → ¬ ts - req.timestamp < kThreshold →
        env.accepts v = true →
        processRequest env ts acc req
          = { acc with
              timelines := bumpTimeline acc.timelines v,
              deliveriesV1 := acc.deliveriesV1 + 1 }
        ∧ (lookupTimeline (bumpTimeline acc.timelines v) v).map Timeline.signaled
            = some (((lookupTimeline acc.timelines v).getD ⟨0, 0⟩).signaled + 1))
    ∧ (∀ v, promote env req.client = some v → ¬ ts - req.timestamp < kThreshold →
        env.accepts v = false →
        processRequest env ts acc req = acc)
    ∧ (∀ rest acc0, drainRequests env ts (req :: rest) acc0
        = drainRequests env ts rest (processRequest env ts acc0 req)) := by
  refine ⟨?_, ?_, ?_, ?_, ?_⟩
  · intro h
    simp [processRequest, h]
  · intro v hv hlt
    simp [processRequest, hv, hlt]
  · intro v hv hlt hacc
    refine ⟨by simp [processRequest, hv, hlt, hacc], ?_⟩
    simp [bumpTimeline, lookupTimeline_setTimeline]
  · intro v hv hlt hacc
    simp [processRequest, hv, hlt, hacc]
  · intro rest acc0
    rfl

/-- Witness for C4: a live client's request whose watermark is 5 time units
before the arriving frame (below the 16000 threshold) is re-queued with the
skip counter incremented. -/
theorem processRequest_witness :
    processRequest env1 100 accW reqW
      = { accW with nextReqs := accW.nextReqs ++ [reqW], syncFrames := accW.syncFrames + 1 } :=
  (processRequest_cases env1 100 accW reqW).2.1 5 rfl (by decide)

/-- Claim C5 (confirmed): `setMaster` installs the caller only when the master
slot holds a null reference and otherwise reports the ownership conflict
without touching the slot; `forceMaster` always reports `OK`, is a no-op when
the promoted master is the caller, and when a different live master holds the
slot it replaces that master and sends it exactly one `MASTER_RELEASED`
notification. -/
theorem master_arbitration_spec (env : Env) (s : State) (caller : Nat) :
    (s.mMaster = none →
      setMaster s caller = ({ s with mMaster := some caller }, EvsResult.OK))
    ∧ (∀ m, s.mMaster = some m → setMaster s caller = (s, EvsResult.OWNERSHIP_LOST))
    ∧ (forceMaster env s caller).2.1 = EvsResult.OK
    ∧ (promoteOpt env s.mMaster = some caller →
        forceMaster env s caller = (s, EvsResult.OK, []))
    ∧ (∀ m, promoteOpt env s.mMaster = some m → m ≠ caller →
        forceMaster env s caller
          = ({ s with mMaster := some caller }, EvsResult.OK,
             [(m, EvsEventType.MASTER_RELEASED)])) := by
  refine ⟨?_, ?_, ?_, ?_, ?_⟩
  · intro h
    simp [setMaster, h]
  · intro m h
    simp [setMaster, h]
  · unfold forceMaster
    rcases h : promoteOpt env s.mMaster with _ | prev
    · rfl
    · by_cases hp : prev = caller <;> simp [hp]
  · intro h
    simp [forceMaster, h]
  · intro m h hm
    simp [forceMaster, h, hm]

/-- Witness for C5: client 3 holds the slot and is alive; `forceMaster` by
client 4 takes the slot and sends client 3 one revoke notification. -/
theorem master_arbitration_witness :
    forceMaster env1 sM 4
      = ({ sM with mMaster := some 4 }, EvsResult.OK, [(3, EvsEventType.MASTER_RELEASED)]) :=
  (master_arbitration_spec env1 sM 4).2.2.2.2 3 rfl (by decide)

/-- Claim C6 (amended): `clientStreamEnding` removes only the first
outstanding pending request of the client; when the client has exactly one
outstanding request and a timeline, the request is removed without delivery,
the timeline is bumped once and discarded, and its destruction force-signals
it, so every fence slot reserved on it is resolved by the time the call
returns.  (The original claim fails when the client has more than one queued
request: the extra requests stay queued — see the counterexample.) -/
theorem clientStreamEnding_single_request (env : Env) (s : State) (c : Nat) (tl : Timeline)
    (h1 : countClientReqs s.mNextRequests c = 1)
    (h2 : lookupTimeline s.mTimelines c = some tl)
    (h3 : (s.mTimelines.map Prod.fst).Nodup) :
    countClientReqs (clientStreamEnding env s c).state.mNextRequests c = 0
    ∧ lookupTimeline (clientStreamEnding env s c).state.mTimelines c = none
    ∧ (clientStreamEnding env s c).destroyed
        = [(c, destroyTimeline { tl with signaled := tl.signaled + 1 })]
    ∧ ∀ n, n ≤ tl.fenceCount →
        fenceResolved (destroyTimeline { tl with signaled := tl.signaled + 1 }) n = true := by
  have hrm := removeFirstReq_count_one s.mNextRequests c h1
  refine ⟨?_, ?_, ?_, ?_⟩
  · simp only [clientStreamEnding, hrm.1, h2]
    split <;> simpa using hrm.2
  · simp only [clientStreamEnding, hrm.1, h2]
    split <;> simpa using lookupTimeline_eraseTimeline s.mTimelines c h3
  · simp only [clientStreamEnding, hrm.1, h2]
    split <;> rfl
  · intro n hn
    simp only [fenceResolved, destroyTimeline, decide_eq_true_eq]
    omega

/-- Claim C6 counterexample: a client that obtained two fences via two
`requestNewFrame` calls (and received no frame) still has one pending request
queued after `clientStreamEnding` — the call removes only the first matching
request, so the claim as stated is false. -/
theorem clientStreamEnding_leftover_request_cex :
    countClientReqs
      (clientStreamEnding env1
        (requestNewFrame (requestNewFrame sE 5 0).1 5 0).1 5).state.mNextRequests 5 = 1
    ∧ countClientReqs
      (clientStreamEnding env1
        (requestNewFrame (requestNewFrame sE 5 0).1 5 0).1 5).state.mNextRequests 5 ≠ 0 := by
  decide

/-- Witness for C6: one outstanding request and a timeline with one reserved
fence slot — the request queue is cleared and the destroyed timeline is fully
signaled. -/
theorem clientStreamEnding_single_request_witness :
    countClientReqs (clientStreamEnding env1 sT 5).state.mNextRequests 5 = 0
    ∧ (clientStreamEnding env1 sT 5).destroyed
        = [(5, destroyTimeline { fenceCount := 1, signaled := 0 + 1 })] := by
  have h := clientStreamEnding_single_request env1 sT 5 ⟨1, 0⟩ (by decide) rfl (by decide)
  exact ⟨h.1, h.2.2.1⟩

/-- Claim C7 (confirmed): when the hardware refuses the buffer-pool resize,
`ownVirtualCamera` returns failure with the state (membership, timelines,
frame records) exactly as before the call. -/
theorem ownVirtualCamera_failure_clean (env : Env) (s : State) (c : Nat) (hw : Nat → Bool)
    (h : hw (demandOf env s.mClients ((env.allowed c : Int))) = false) :
    ownVirtualCamera env s (some c) hw = (s, false) := by
  simp [ownVirtualCamera, changeFramesInFlight, h]

/-- Witness for C7: a hardware that refuses every resize makes the attach of
client 11 fail with the state unchanged. -/
theorem ownVirtualCamera_failure_witness :
    ownVirtualCamera env1 s0 (some 11) (fun _ => false) = (s0, false) :=
  ownVirtualCamera_failure_clean env1 s0 11 (fun _ => false) rfl

/-- Claim C8 (confirmed): a non-master caller of `setParameter` triggers no
hardware write, gets the current value read into its slot (when the read
succeeds), receives no notification and a permission-denied (`INVALID_ARG`)
result; a master caller triggers the write, and when the write succeeds the
result is `OK`, the read-back value is stored, and every attached live client
receives a `PARAMETER_CHANGED` notification. -/
theorem setParameter_gating (env : Env) (s : State) (caller : Nat) (id : Nat) (v : Int) :
    (isMasterCaller env s caller = false →
      (setParameter env s caller id v).hwWrote = false
      ∧ (setParameter env s caller id v).result = EvsResult.INVALID_ARG
      ∧ (setParameter env s caller id v).notified = []
      ∧ ∀ rv, env.getIntParameter id = (EvsResult.OK, rv) →
          (setParameter env s caller id v).value = rv)
    ∧ (isMasterCaller env s caller = true →
      (setParameter env s caller id v).hwWrote = true
      ∧ ∀ st rv, env.setIntParameter id v = (st, rv) → st = EvsResult.OK →
          (setParameter env s caller id v).result = EvsResult.OK
          ∧ (setParameter env s caller id v).value = rv
          ∧ ∀ c, c ∈ s.mClients → env.alive c = true →
              (c, EvsEventType.PARAMETER_CHANGED) ∈ (setParameter env s caller id v).notified) := by
  constructor
  · intro h
    refine ⟨by simp [setParameter, h], by simp [setParameter, h], by simp [setParameter, h], ?_⟩
    intro rv hrv
    simp [setParameter, h, hrv]
  · intro h
    constructor
    · unfold setParameter
      rw [if_pos h]
      simp only []
      split <;> rfl
    · intro st rv hp hst
      refine ⟨by simp [setParameter, h, hp, hst], by simp [setParameter, h, hp, hst], ?_⟩
      intro c hc halive
      simp only [setParameter, h, hp, hst, if_true, if_pos]
      simp only [notify, reduceIte]
      rw [List.mem_filterMap]
      exact ⟨c, hc, by simp [promote, halive]⟩

/-- Witness for C8: a non-master caller gets no hardware write and receives
the hardware's current value (0). -/
theorem setParameter_gating_witness :
    (setParameter env1 s0 4 2 9).hwWrote = false
    ∧ (setParameter env1 s0 4 2 9).value = 0 := by
  have h := (setParameter_gating env1 s0 4 2 9).1 rfl
  exact ⟨h.1, h.2.2.2 0 rfl⟩

/-- Claim C9 (amended): each `requestNewFrame` call on a
synchronization-supporting session appends exactly one request for the caller
to the pending queue, with no per-client deduplication — the queue holds one
slot per outstanding call, not one slot per client, and other clients' request
counts are unchanged.  (The original at-most-one-per-client claim fails after
two calls by the same client — see the counterexample.) -/
theorem requestNewFrame_appends (s : State) (c : Nat) (ts : Int)
    (h : s.mSyncSupported = true) :
    (requestNewFrame s c ts).1.mNextRequests
      = s.mNextRequests ++ [{ client := c, timestamp := ts }]
    ∧ countClientReqs (requestNewFrame s c ts).1.mNextRequests c
        = countClientReqs s.mNextRequests c + 1
    ∧ ∀ c2, c2 ≠ c →
        countClientReqs (requestNewFrame s c ts).1.mNextRequests c2
          = countClientReqs s.mNextRequests c2 := by
  have hq : (requestNewFrame s c ts).1.mNextRequests
      = s.mNextRequests ++ [{ client := c, timestamp := ts }] := by
    simp [requestNewFrame, h]
  refine ⟨hq, ?_, ?_⟩
  · rw [hq, countClientReqs_append]
    simp [countClientReqs]
  · intro c2 hc2
    rw [hq, countClientReqs_append]
    have hne : ¬ c = c2 := fun e => hc2 e.symm
    have : countClientReqs [{ client := c, timestamp := ts }] c2 = 0 := by
      simp [countClientReqs, hne]
    omega

/-- Claim C9 counterexample: two `requestNewFrame` calls by client 5 with no
intervening delivery leave two simultaneously queued requests for client 5. -/
theorem requestNewFrame_duplicate_cex :
    countClientReqs (requestNewFrame (requestNewFrame sE 5 0).1 5 0).1.mNextRequests 5 = 2
    ∧ ¬ countClientReqs (requestNewFrame (requestNewFrame sE 5 0).1 5 0).1.mNextRequests 5 ≤ 1 := by
  decide

/-- Witness for C9: one call by client 5 appends exactly its one request. -/
theorem requestNewFrame_appends_witness :
    (requestNewFrame sE 5 0).1.mNextRequests
      = sE.mNextRequests ++ [{ client := 5, timestamp := 0 }] :=
  (requestNewFrame_appends sE 5 0 rfl).1

/-- Claim C10 (confirmed): when the stored master reference no longer promotes
(the master client was destroyed without releasing the slot), `setMaster` by
any caller still reports the ownership conflict, `unsetMaster` fails with
`INVALID_ARG` for every caller, and `forceMaster` reassigns the slot without
sending any revoke notification. -/
theorem dead_master_slot (env : Env) (s : State) (m : Nat)
    (hm : s.mMaster = some m) (hd : env.alive m = false) :
    (∀ caller, setMaster s caller = (s, EvsResult.OWNERSHIP_LOST))
    ∧ (∀ caller, unsetMaster env s caller = (s, EvsResult.INVALID_ARG, []))
    ∧ (∀ caller, forceMaster env s caller
        = ({ s with mMaster := some caller }, EvsResult.OK, [])) := by
  have hpo : promoteOpt env s.mMaster = none := by
    simp [promoteOpt, hm, promote, hd]
  refine ⟨?_, ?_, ?_⟩
  · intro caller
    simp [setMaster, hm]
  · intro caller
    simp [unsetMaster, hpo]
  · intro caller
    simp [forceMaster, hpo]

/-- Witness for C10: client 3 holds the slot but is destroyed; caller 4 gets
the conflict from `setMaster`, the error from `unsetMaster`, and a silent
takeover from `forceMaster`. -/
theorem dead_master_slot_witness :
    setMaster sM 4 = (sM, EvsResult.OWNERSHIP_LOST)
    ∧ unsetMaster envD sM 4 = (sM, EvsResult.INVALID_ARG, [])
    ∧ forceMaster envD sM 4 = ({ sM with mMaster := some 4 }, EvsResult.OK, []) := by
  have h := dead_master_slot envD sM 3 rfl rfl
  exact ⟨h.1 4, h.2.1 4, h.2.2 4⟩

end Evs
